/-
Verification of the SkyPortal facility-integration and API-validation layer.

This file gives a shallow embedding, in Lean 4, of:
  * the Liverpool Telescope (LT) RTML payload builders and the
    submit/delete state transitions of `skyportal/facility_apis/lt.py`;
  * the `ObjAnalysis` permission predicates of `skyportal/models/analysis.py`;
  * the request-body validation of
    `skyportal/handlers/api/summary_query.py` (SummaryQueryHandler.post);
  * the ASCII-spectrum size guard of
    `skyportal/handlers/api/spectrum.py` (ASCIIHandler / SpectrumASCIIFileHandler),
and proves the specified properties of those embeddings.

External libraries used by the Python code (lxml parsing, the arrow date
library, the SOAP client, astropy coordinate conversion, the marshmallow
validator) are not code of this repository; they enter the model as
explicit function parameters or as pre-converted string fields, so every
theorem quantifies over their behaviour.
-/

import Mathlib

/-! ## XML element model (lxml etree) -/

/-- A shallow model of an `lxml.etree` element: a tag, an ordered attribute
list, optional text, and a list of child elements.  Namespaced tags and
attribute names are represented, as in lxml, by the Clark notation string
`\x7bnamespace-uri\x7dlocalname`. -/
inductive XElem : Type where
  | mk : String → List (String × String) → Option String → List XElem → XElem

/-- The tag of an element. -/
def XElem.tag : XElem → String
  | .mk t _ _ _ => t

/-- The attribute list of an element. -/
def XElem.attrs : XElem → List (String × String)
  | .mk _ a _ _ => a

/-- The text of an element (`None` in Python when absent). -/
def XElem.text : XElem → Option String
  | .mk _ _ x _ => x

/-- The children of an element. -/
def XElem.children : XElem → List XElem
  | .mk _ _ _ c => c

/-- `element.get(name)`: the value of attribute `name`, or `None`. -/
def getAttr (e : XElem) (name : String) : Option String :=
  (e.attrs.find? (fun p => p.1 = name)).map Prod.snd

/-- `parent.append(child)` / `etree.SubElement`: the parent with one more
child at the end. -/
def appendChild (e : XElem) (c : XElem) : XElem :=
  XElem.mk e.tag e.attrs e.text (e.children ++ [c])

mutual

/-- `element.iter(tag)`: all elements of the subtree with the given tag, in
document order, the element itself included. -/
def iterTag (tag : String) : XElem → List XElem
  | .mk t a x cs =>
    (if t = tag then [XElem.mk t a x cs] else []) ++ iterTagList tag cs

/-- `iterTag` over a list of sibling subtrees, in order. -/
def iterTagList (tag : String) : List XElem → List XElem
  | [] => []
  | c :: cs => iterTag tag c ++ iterTagList tag cs

end

mutual

/-- `etree.tostring(e, encoding="unicode", pretty_print=True)`: the model's
serialization of an element.  (Whitespace layout and attribute escaping of
lxml are abstracted; the claims only relate stored transactions to this
serialization function.) -/
def xmlToString : XElem → String
  | .mk t a x cs =>
    "<" ++ t ++ attrsToString a ++ ">" ++
      (match x with | some s => s | none => "") ++
      xmlListToString cs ++ "</" ++ t ++ ">"

/-- Serialize an attribute list. -/
def attrsToString : List (String × String) → String
  | [] => ""
  | (n, v) :: rest => " " ++ n ++ "=\"" ++ v ++ "\"" ++ attrsToString rest

/-- Serialize a list of sibling elements. -/
def xmlListToString : List XElem → String
  | [] => ""
  | c :: cs => xmlToString c ++ xmlListToString cs

end

/-- Python's rendering of a possibly-`None` value inside an f-string or
`str(...)`: `None` prints as the string `"None"`. -/
def pyStr : Option String → String
  | some s => s
  | none => "None"

/-! ## LT constants (`skyportal/facility_apis/lt.py`, lines 22-26) -/

def LT_XML_NS : String := "http://www.rtml.org/v3.1a"

def LT_XSI_NS : String := "http://www.w3.org/2001/XMLSchema-instance"

def LT_SCHEMA_LOCATION : String :=
  "http://www.rtml.org/v3.1a http://telescope.livjm.ac.uk/rtml/RTML-nightly.xsd"

/-- The Clark-notation attribute name produced by
`etree.QName(LT_XSI_NS, "schemaLocation")`. -/
def xsiSchemaLocation : String :=
  "\x7bhttp://www.w3.org/2001/XMLSchema-instance\x7dschemaLocation"

/-- The Clark-notation tag used by
`response_rtml.iter("\x7bhttp://www.rtml.org/v3.1a\x7dError")`. -/
def ltErrorTag : String := "\x7bhttp://www.rtml.org/v3.1a\x7dError"

/-! ## Data model of a follow-up request -/

/-- The per-allocation credential blob (`request.allocation.altdata`) as the
LT APIs read it. -/
structure Altdata where
  username : String
  password : String
  LT_proposalID : String
deriving DecidableEq, Repr

/-- String components of the astropy coordinate conversion in
`LTRequest._build_target`.  The floating-point `SkyCoord` arithmetic is
external to the repository; the already-converted sexagesimal strings are
taken as data. -/
structure Coords where
  raHours : String
  raMinutes : String
  raSeconds : String
  decSign : String
  decDegrees : String
  decArcminutes : String
  decArcseconds : String
deriving DecidableEq, Repr

/-- The target object of a follow-up request (`request.obj`). -/
structure Obj where
  id : String
  internal_key : String
  coords : Coords
deriving DecidableEq, Repr

/-- The fields of `request.payload` that the LT builders read.  Numeric
fields that only ever appear through `str(...)` are carried as their string
rendering; `exposure_counts` is carried after the code's `int(...)`
conversion. -/
structure LTPayloadData where
  observation_choices : List String
  observation_type : String
  exposure_time : String
  exposure_counts : Int
  start_date : String
  end_date : String
  maximum_airmass : String
  maximum_seeing : String
  sky_brightness : String
  photometric : Option Bool
deriving DecidableEq, Repr

/-- A `FacilityTransaction` row as the LT APIs create and read it. -/
structure FacilityTransaction where
  request : String
  response : String
  initiator_id : Nat
deriving DecidableEq, Repr

/-- A `FollowupRequest` row as the LT APIs read and update it.
`altdata` is `none` when the allocation has no credential blob. -/
structure FollowupRequest where
  id : Nat
  obj : Obj
  altdata : Option Altdata
  payload : LTPayloadData
  status : String
  last_modified_by_id : Nat
  transactions : List FacilityTransaction
deriving DecidableEq, Repr

/-! ## Payload builders (`LTRequest`) -/

/-- `LTRequest._build_prolog` (lt.py lines 32-55): the RTML root element.
`timestamp` is the ambient `int(time.time())`. -/
def build_prolog (request : FollowupRequest) (timestamp : Nat) : XElem :=
  XElem.mk "RTML"
    [(xsiSchemaLocation, LT_SCHEMA_LOCATION),
     ("xmlns", LT_XML_NS),
     ("mode", "request"),
     ("uid", request.obj.id ++ "-" ++ toString request.id ++ "-" ++ toString timestamp),
     ("version", "3.1a")]
    none []

/-- `LTRequest._build_project` (lt.py lines 57-82): appends the Project
header to the payload.  The caller has already checked that
`request.allocation.altdata` is present. -/
def build_project (payload : XElem) (altdata : Altdata) : XElem :=
  appendChild payload
    (XElem.mk "Project" [("ProjectID", altdata.LT_proposalID)] none
      [XElem.mk "Contact" [] none
        [XElem.mk "Username" [] (some altdata.username) [],
         XElem.mk "Name" [] (some altdata.username) []]])

/-- `LTRequest._build_constraints` (lt.py lines 84-140).  `arrowFormat`
models the external arrow library's
`arrow.get(s).format("YYYY-MM-DDTHH:mm:ss")`: it returns the formatted date
on success and `none` when `s` cannot be parsed as a date.  A parse failure
of either date raises `ValueError`, modelled by `Except.error`. -/
def build_constraints (arrowFormat : String → Option String)
    (request : FollowupRequest) : Except String (List XElem) :=
  let airmass_const :=
    XElem.mk "AirmassConstraint" [("maximum", request.payload.maximum_airmass)] none []
  let sky_const :=
    XElem.mk "SkyConstraint" [] none
      [XElem.mk "Flux" [] (some request.payload.sky_brightness) [],
       XElem.mk "Units" [] (some "magnitudes/square-arcsecond") []]
  let seeing_const :=
    XElem.mk "SeeingConstraint"
      [("maximum", request.payload.maximum_seeing), ("units", "arcseconds")] none []
  let photom_const :=
    XElem.mk "ExtinctionConstraint" [] none
      [XElem.mk "Clouds" []
        (some (if request.payload.photometric = some true then "clear" else "light")) []]
  match arrowFormat request.payload.start_date, arrowFormat request.payload.end_date with
  | some s, some e =>
    let date_const :=
      XElem.mk "DateTimeConstraint" [("type", "include")] none
        [XElem.mk "DateTimeStart" [("system", "UT"), ("value", s ++ "+00:00")] none [],
         XElem.mk "DateTimeEnd" [("system", "UT"), ("value", e ++ "+00:00")] none []]
    Except.ok [airmass_const, sky_const, seeing_const, photom_const, date_const]
  | _, _ =>
    Except.error "Error parsing dates for LT request, should be in ISO format"

/-- `LTRequest._build_target` (lt.py lines 142-171), over the
pre-converted coordinate strings. -/
def build_target (obj : Obj) : XElem :=
  XElem.mk "Target" [("name", obj.id)] none
    [XElem.mk "Coordinates" [] none
      [XElem.mk "RightAscension" [] none
        [XElem.mk "Hours" [] (some obj.coords.raHours) [],
         XElem.mk "Minutes" [] (some obj.coords.raMinutes) [],
         XElem.mk "Seconds" [] (some obj.coords.raSeconds) []],
       XElem.mk "Declination" [] none
        [XElem.mk "Degrees" [] (some (obj.coords.decSign ++ obj.coords.decDegrees)) [],
         XElem.mk "Arcminutes" [] (some obj.coords.decArcminutes) [],
         XElem.mk "Arcseconds" [] (some obj.coords.decArcseconds) []],
       XElem.mk "Equinox" [] (some "J2000") []]]

/-! ## IOO/IOI and SPRAT schedule builders -/

/-- The SpectralRegion children of the Device element in
`IOOIOIRequest._build_schedule` (lt.py lines 255-258): one element for
IO:O or IO:I, none for any other instrument name. -/
def spectralRegionFor (instname : String) : List XElem :=
  if instname = "IO:O" then [XElem.mk "SpectralRegion" [] (some "optical") []]
  else if instname = "IO:I" then [XElem.mk "SpectralRegion" [] (some "infrared") []]
  else []

/-- `IOOIOIRequest._build_schedule` (lt.py lines 223-271): one Schedule
element for one filter choice. -/
def build_schedule (arrowFormat : String → Option String) (instname : String)
    (request : FollowupRequest) (filt : String) (exp_time : String)
    (exp_count : Int) : Except String XElem :=
  let setup :=
    XElem.mk "Setup" [] none
      [XElem.mk "Filter" [("type", filt.toUpper)] none [],
       XElem.mk "Detector" [] none
        [XElem.mk "Binning" [] none
          [XElem.mk "X" [("units", "pixels")] (some "2") [],
           XElem.mk "Y" [("units", "pixels")] (some "2") []]]]
  let device :=
    XElem.mk "Device" [("name", instname), ("type", "camera")] none
      (spectralRegionFor instname ++ [setup])
  let exposure :=
    XElem.mk "Exposure" [("count", toString exp_count)] none
      [XElem.mk "Value" [("units", "seconds")] (some exp_time) []]
  match build_constraints arrowFormat request with
  | Except.error e => Except.error e
  | Except.ok consts =>
    Except.ok (XElem.mk "Schedule" [] none
      ([device, exposure, build_target request.obj] ++ consts))

/-- The loop of `IOOIOIRequest._build_inst_schedule` (lt.py lines 216-221):
appends one Schedule per filter in `observation_choices`, in order,
propagating the first raised error. -/
def appendSchedules (arrowFormat : String → Option String) (instname : String)
    (request : FollowupRequest) (exp_time : String) (exp_count : Int) :
    List String → XElem → Except String XElem
  | [], acc => Except.ok acc
  | filt :: rest, acc =>
    match build_schedule arrowFormat instname request filt exp_time exp_count with
    | Except.error e => Except.error e
    | Except.ok sched =>
      appendSchedules arrowFormat instname request exp_time exp_count rest
        (appendChild acc sched)

/-- `IOOIOIRequest._build_inst_schedule` (lt.py lines 195-221). -/
def build_inst_schedule (arrowFormat : String → Option String) (instname : String)
    (payload : XElem) (request : FollowupRequest) : Except String XElem :=
  appendSchedules arrowFormat instname request request.payload.exposure_time
    request.payload.exposure_counts request.payload.observation_choices payload

/-- `IOOIOIRequest.__init__` (lt.py lines 177-193): the complete observation
payload for IO:O / IO:I. -/
def IOOIOIRequest_payload (arrowFormat : String → Option String) (instname : String)
    (request : FollowupRequest) (timestamp : Nat) (altdata : Altdata) :
    Except String XElem :=
  build_inst_schedule arrowFormat instname
    (build_project (build_prolog request timestamp) altdata) request

/-- `SPRATRequest._build_SPRAT_schedule` (lt.py lines 312-348): the single
SPRAT Schedule appended to the payload. -/
def build_SPRAT_schedule (arrowFormat : String → Option String)
    (payload : XElem) (request : FollowupRequest) : Except String XElem :=
  let grating := request.payload.observation_type
  let exp_time := request.payload.exposure_time
  let exp_count := request.payload.exposure_counts
  let setup :=
    XElem.mk "Setup" [] none
      [XElem.mk "Grating" [("name", grating)] none [],
       XElem.mk "Detector" [] none
        [XElem.mk "Binning" [] none
          [XElem.mk "X" [("units", "pixels")] (some "1") [],
           XElem.mk "Y" [("units", "pixels")] (some "1") []]]]
  let device :=
    XElem.mk "Device" [("name", "Sprat"), ("type", "spectrograph")] none
      [XElem.mk "SpectralRegion" [] (some "optical") [], setup]
  let exposure :=
    XElem.mk "Exposure" [("count", toString exp_count)] none
      [XElem.mk "Value" [("units", "seconds")] (some exp_time) []]
  match build_constraints arrowFormat request with
  | Except.error e => Except.error e
  | Except.ok consts =>
    Except.ok (appendChild payload
      (XElem.mk "Schedule" [] none
        ([device, exposure, build_target request.obj] ++ consts)))

/-- `SPRATRequest.__init__` (lt.py lines 277-310): the complete observation
payload for SPRAT. -/
def SPRATRequest_payload (arrowFormat : String → Option String)
    (request : FollowupRequest) (timestamp : Nat) (altdata : Altdata) :
    Except String XElem :=
  build_SPRAT_schedule arrowFormat
    (build_project (build_prolog request timestamp) altdata) request

/-! ## Serialization helpers stored in transactions -/

/-- Modelled from the spec: `http.serialize_requests_request_xml` (from
`skyportal/utils/http`, not part of the excerpt).  Per the spec, the
facility transaction records the serialized request payload; the helper is
modelled as the wrapper that keeps that payload string. -/
def serialize_requests_request_xml (s : String) : String := s

/-- Modelled from the spec: `http.serialize_requests_response_xml` (from
`skyportal/utils/http`, not part of the excerpt).  Per the spec, the
facility transaction records the serialized response; the helper is
modelled as the wrapper that keeps that response string. -/
def serialize_requests_response_xml (s : String) : String := s

/-! ## Submit and delete operations

The SOAP transport (`suds.Client(...).service.handle_rtml`, composed with
the `.replace('encoding="ISO-8859-1"', "")` strip) enters the model as a
function `transport : String → String`, and the external lxml parser
`etree.fromstring` as a function `fromstring : String → XElem`.  Every
theorem quantifies over both.  An operation's result records the list of
payload strings sent over the transport (the outbound handle_rtml calls)
together with either the raised exception (`Except.error`) or the updated
request and the facility transactions added to the session. -/

/-- The state an LT operation leaves behind when it completes: the updated
follow-up request and the `FacilityTransaction` rows added to the session. -/
structure LTOutcome where
  request : FollowupRequest
  transactions : List FacilityTransaction
deriving DecidableEq, Repr

/-- The full observable result of one LT operation invocation: outbound
handle_rtml payloads sent, and completion or raised error. -/
structure LTOpResult where
  calls : List String
  outcome : Except String LTOutcome

/-- The status computation shared by the three submit operations
(lt.py lines 499-505, 652-658, 806-812): `"submitted"` when the parsed
response's mode is `"confirm"`; otherwise `"rejected: "` followed by the
text of the first Error element in the RTML v3.1a namespace, an IndexError
being raised when no such element exists. -/
def lt_submit_status (response_rtml : XElem) : Except String String :=
  if getAttr response_rtml "mode" = some "confirm" then Except.ok "submitted"
  else
    match (iterTag ltErrorTag response_rtml).head? with
    | some errElem => Except.ok ("rejected: " ++ pyStr errElem.text)
    | none => Except.error "IndexError: list index out of range"

/-- The post-build part shared verbatim by `IOOAPI.submit`, `IOIAPI.submit`
and `SPRATAPI.submit` (lt.py lines 491-529, 644-682, 798-836): serialize
the payload, make the single handle_rtml call, parse the response, compute
the new status, and add the one facility transaction. -/
def lt_submit_transact (fromstring : String → XElem) (transport : String → String)
    (request : FollowupRequest) (observation_payload : XElem) : LTOpResult :=
  let full_payload := xmlToString observation_payload
  let response := transport full_payload
  let response_rtml := fromstring response
  match lt_submit_status response_rtml with
  | Except.error e => { calls := [full_payload], outcome := Except.error e }
  | Except.ok newStatus =>
    { calls := [full_payload],
      outcome := Except.ok
        { request := { request with status := newStatus },
          transactions :=
            [{ request := serialize_requests_request_xml full_payload,
               response := serialize_requests_response_xml response,
               initiator_id := request.last_modified_by_id }] } }

/-- The submit body shared verbatim (but for the builder used) by
`IOOAPI.submit`, `IOIAPI.submit` and `SPRATAPI.submit`: check the
allocation credential blob, build the observation payload (which may raise
while parsing dates), then make the single round-trip and record the
transaction. -/
def lt_submit_op (fromstring : String → XElem) (transport : String → String)
    (request : FollowupRequest) (build : Altdata → Except String XElem) : LTOpResult :=
  match request.altdata with
  | none => { calls := [], outcome := Except.error "Missing allocation information." }
  | some altdata =>
    match build altdata with
    | Except.error e => { calls := [], outcome := Except.error e }
    | Except.ok observation_payload =>
      lt_submit_transact fromstring transport request observation_payload

/-- `IOOAPI.submit` (lt.py lines 465-543). -/
def IOOAPI_submit (arrowFormat : String → Option String)
    (fromstring : String → XElem) (transport : String → String)
    (timestamp : Nat) (request : FollowupRequest) : LTOpResult :=
  lt_submit_op fromstring transport request
    (fun altdata => IOOIOIRequest_payload arrowFormat "IO:O" request timestamp altdata)

/-- `IOIAPI.submit` (lt.py lines 618-696). -/
def IOIAPI_submit (arrowFormat : String → Option String)
    (fromstring : String → XElem) (transport : String → String)
    (timestamp : Nat) (request : FollowupRequest) : LTOpResult :=
  lt_submit_op fromstring transport request
    (fun altdata => IOOIOIRequest_payload arrowFormat "IO:I" request timestamp altdata)

/-- `SPRATAPI.submit` (lt.py lines 771-850). -/
def SPRATAPI_submit (arrowFormat : String → Option String)
    (fromstring : String → XElem) (transport : String → String)
    (timestamp : Nat) (request : FollowupRequest) : LTOpResult :=
  lt_submit_op fromstring transport request
    (fun altdata => SPRATRequest_payload arrowFormat request timestamp altdata)

/-- The cancel payload built by `LTAPI.delete` (lt.py lines 385-404):
an RTML root with mode `"abort"`, the uid taken from the stored first
transaction's response (`format(str(uid))`, so a missing uid prints as
`"None"`), and the Project/Contact header with an empty Communication. -/
def lt_cancel_payload (uid : Option String) (altdata : Altdata) : XElem :=
  XElem.mk "RTML"
    [(xsiSchemaLocation, LT_SCHEMA_LOCATION),
     ("mode", "abort"),
     ("uid", pyStr uid),
     ("version", "3.1a")]
    none
    [XElem.mk "Project" [("ProjectID", altdata.LT_proposalID)] none
      [XElem.mk "Contact" [] none
        [XElem.mk "Username" [] (some altdata.username) [],
         XElem.mk "Name" [] (some altdata.username) [],
         XElem.mk "Communication" [] none []]]]

/-- `LTAPI.delete` (lt.py lines 354-441).  Reading
`request.transactions[0]` raises an IndexError when the request has no
stored transaction.  After the cancel round-trip: on mode `"confirm"` the
status becomes `"deleted"` and a transaction is added; on mode `"reject"`
only the transaction is added; on any other mode the event is logged and
nothing is changed or added. -/
def LTAPI_delete (fromstring : String → XElem) (transport : String → String)
    (request : FollowupRequest) : LTOpResult :=
  match request.altdata with
  | none => { calls := [], outcome := Except.error "Missing allocation information." }
  | some altdata =>
    match request.transactions.head? with
    | none => { calls := [], outcome := Except.error "IndexError: list index out of range" }
    | some t0 =>
      let uid := getAttr (fromstring t0.response) "uid"
      let cancel := xmlToString (lt_cancel_payload uid altdata)
      let response := transport cancel
      let response_rtml := fromstring response
      let mode := getAttr response_rtml "mode"
      if mode = some "confirm" ∨ mode = some "reject" then
        { calls := [cancel],
          outcome := Except.ok
            { request :=
                if mode = some "confirm" then { request with status := "deleted" }
                else request,
              transactions :=
                [{ request := serialize_requests_request_xml cancel,
                   response := serialize_requests_response_xml response,
                   initiator_id := request.last_modified_by_id }] } }
      else
        { calls := [cancel], outcome := Except.ok { request := request, transactions := [] } }

/-- Modelled from the spec: the API layer that invokes the facility
submit/delete operations is not part of the excerpt; per the spec,
external-service failures (such as missing credentials) "are logged and
surfaced as rejected/error statuses on the originating record".  The
raised failure message is recorded as an error status on the originating
follow-up request. -/
def surface_failure (request : FollowupRequest) (msg : String) : FollowupRequest :=
  { request with status := "error: " ++ msg }

/-! ## ObjAnalysis permission predicates (`skyportal/models/analysis.py`) -/

/-- The acting user as the permission predicates see it, relative to one
record: the user's id, the ids of the groups the user is a member of, and
whether the user can read the Obj associated with the record under
consideration. -/
structure AccessUser where
  userId : Nat
  groupMemberships : List Nat
  canReadObj : Bool
deriving DecidableEq, Repr

/-- The columns of an `ObjAnalysis` row that its permission predicates
read. -/
structure ObjAnalysisRow where
  author_id : Nat
  group_ids : List Nat
deriving DecidableEq, Repr

/-- Modelled from the spec: `AccessibleIfUserMatches('author')` is defined
in baselayer, outside the excerpt; per the spec's "ORM-level predicates
gating create/read/update/delete by group membership and authorship", it
grants access when the acting user is the record's author. -/
def accessibleIfUserMatchesAuthor (u : AccessUser) (r : ObjAnalysisRow) : Bool :=
  u.userId = r.author_id

/-- Modelled from the spec: `accessible_by_groups_members` is defined in
`skyportal/models/group.py`, outside the excerpt; per the spec's gating "by
group membership", it grants access when the acting user is a member of one
of the record's groups. -/
def accessible_by_groups_members (u : AccessUser) (r : ObjAnalysisRow) : Bool :=
  r.group_ids.any (fun g => u.groupMemberships.contains g)

/-- Modelled from the spec: `AccessibleIfRelatedRowsAreAccessible(obj='read')`
is defined in baselayer, outside the excerpt; it grants access when the
acting user can read the related Obj. -/
def accessibleIfRelatedObjReadable (u : AccessUser) (_r : ObjAnalysisRow) : Bool :=
  u.canReadObj

/-- `ObjAnalysis.read` (analysis.py lines 362-364):
`accessible_by_groups_members & AccessibleIfRelatedRowsAreAccessible(obj='read')`. -/
def ObjAnalysis_read (u : AccessUser) (r : ObjAnalysisRow) : Bool :=
  accessible_by_groups_members u r && accessibleIfRelatedObjReadable u r

/-- `ObjAnalysis.update` (analysis.py line 365):
`AccessibleIfUserMatches('author')`. -/
def ObjAnalysis_update (u : AccessUser) (r : ObjAnalysisRow) : Bool :=
  accessibleIfUserMatchesAuthor u r

/-- `ObjAnalysis.delete` (analysis.py line 365): the same predicate as
`update`. -/
def ObjAnalysis_delete (u : AccessUser) (r : ObjAnalysisRow) : Bool :=
  accessibleIfUserMatchesAuthor u r

/-! ## Summary-search query validation (`skyportal/handlers/api/summary_query.py`) -/

/-- The request-body fields read by `SummaryQueryHandler.post`.  A field is
`none` when missing from the JSON body (or JSON `null`); redshift bounds
and `k` are JSON numbers, carried as rationals. -/
structure SummaryQueryBody where
  q : Option String
  objID : Option String
  k : Option ℚ
  z_min : Option ℚ
  z_max : Option ℚ
  classificationTypes : Option (List String)
deriving DecidableEq, Repr

/-- The metadata filter dictionary passed to the vector index, as built in
summary_query.py lines 259-282. -/
inductive PineFilter : Type where
  | empty : PineFilter
  | zGte : ℚ → PineFilter
  | zLte : ℚ → PineFilter
  | classIn : List String → PineFilter
  | and : PineFilter → PineFilter → PineFilter
deriving DecidableEq, Repr

/-- The redshift part of the filter (summary_query.py lines 260-269). -/
def build_z_filt (z_min z_max : Option ℚ) : Option PineFilter :=
  match z_min, z_max with
  | some zmin, none => some (PineFilter.zGte zmin)
  | none, some zmax => some (PineFilter.zLte zmax)
  | some zmin, some zmax => some (PineFilter.and (PineFilter.zGte zmin) (PineFilter.zLte zmax))
  | none, none => none

/-- The classification part of the filter (summary_query.py lines 270-273):
built unless `classificationTypes` is missing or the empty list. -/
def build_class_filt (cts : Option (List String)) : Option PineFilter :=
  match cts with
  | none => none
  | some [] => none
  | some cs => some (PineFilter.classIn cs)

/-- The combined filter (summary_query.py lines 275-282). -/
def build_filt (class_filt z_filt : Option PineFilter) : PineFilter :=
  match class_filt, z_filt with
  | some c, some z => PineFilter.and c z
  | some c, none => c
  | none, some z => z
  | none, none => PineFilter.empty

/-- The observable outcome of the body-validation and dispatch part of
`SummaryQueryHandler.post` (summary_query.py lines 241-315): either a
`self.error(...)` response — a 400-class API error per the spec, with no
vector-index query issued — or the one vector-index query the handler goes
on to issue (by embedded query string, or by objID). -/
inductive SummaryQueryOutcome : Type where
  | err : String → SummaryQueryOutcome
  | searchByString : String → ℚ → PineFilter → SummaryQueryOutcome
  | searchByObjID : Option String → ℚ → PineFilter → SummaryQueryOutcome
deriving DecidableEq, Repr

/-- Whether the outcome is an error response (no vector-index query). -/
def SummaryQueryOutcome.isErr : SummaryQueryOutcome → Bool
  | SummaryQueryOutcome.err _ => true
  | _ => false

/-- The body-validation and dispatch logic of `SummaryQueryHandler.post`
(summary_query.py lines 241-315), from `data = self.get_json()` on.  The
earlier guards of the handler (pinecone configuration, OpenAI key lookup)
also produce `self.error` responses and issue no query; they are upstream
of the body and outside this function. -/
def summary_query_post (b : SummaryQueryBody) : SummaryQueryOutcome :=
  if (b.q = none ∨ b.q = some "") ∧ (b.objID = none ∨ b.objID = some "") then
    SummaryQueryOutcome.err ("Missing one of the required: \"q\" or \"objID\"")
  else if b.q ≠ none ∧ b.objID ≠ none then
    SummaryQueryOutcome.err ("Cannot specify both \"q\" and \"objID\"")
  else
    let k := b.k.getD 5
    if k < 1 ∨ k > 100 then
      SummaryQueryOutcome.err ("k must be 1<=k<=100")
    else
      let proceed : SummaryQueryOutcome :=
        let filt := build_filt (build_class_filt b.classificationTypes)
          (build_z_filt b.z_min b.z_max)
        if b.q = none ∨ b.q = some "" then
          SummaryQueryOutcome.searchByObjID b.objID k filt
        else
          SummaryQueryOutcome.searchByString (pyStr b.q) k filt
      match b.z_min, b.z_max with
      | some zmin, some zmax =>
        if zmin > zmax then SummaryQueryOutcome.err ("z_min must be <= z_max")
        else proceed
      | _, _ => proceed

/-! ## ASCII spectrum upload (`skyportal/handlers/api/spectrum.py`) -/

/-- The JSON body of an ASCII spectrum request as `spec_from_ascii_request`
reads it: the `ascii` file content plus the pass-through metadata fields. -/
structure AsciiBody where
  ascii : String
  obj_id : Option String
  instrument_id : Option Nat
  observed_at : Option String
  wave_column : Option String
  flux_column : Option String
  fluxerr_column : Option String
  filename : Option String
deriving DecidableEq, Repr

/-- `ASCIIHandler.spec_from_ascii_request` (spectrum.py lines 222-256).
`validate` models the external marshmallow schema's `validator.load`: it
returns a normalized-message string when the body is invalid and `none`
when it loads (the declared schemas pass the `ascii` field through
unchanged).  `fromAscii` models `Spectrum.from_ascii`, the parser invoked
only after the guards pass.  A raised `ValidationError`/`ValueError` is
`Except.error`. -/
def spec_from_ascii_request {α : Type} (validate : AsciiBody → Option String)
    (fromAscii : AsciiBody → α) (body : AsciiBody) : Except String α :=
  match validate body with
  | some e => Except.error ("Invalid/missing parameters: " ++ e)
  | none =>
    if body.ascii.length > 10000000 then
      Except.error ("File must be smaller than 10,000,000 characters.")
    else
      Except.ok (fromAscii body)

/-- The observable outcome of `SpectrumASCIIFileHandler.post`: either a
`self.error(...)` response — a 400-class API error per the spec — or a
success; `created` is the spectrum added to the database session, if any. -/
structure AsciiPostOutcome (α : Type) where
  errorMessage : Option String
  created : Option α

/-- `SpectrumASCIIFileHandler.post` (spectrum.py lines 259-340): the call
to `spec_from_ascii_request` and its error surfacing.  The rest of the
handler (object/instrument/group lookups and the database commit) runs
only when the spectrum was read and is abstracted as `continuePost`. -/
def spectrum_ascii_file_post {α : Type} (validate : AsciiBody → Option String)
    (fromAscii : AsciiBody → α) (continuePost : α → AsciiPostOutcome α)
    (body : AsciiBody) : AsciiPostOutcome α :=
  match spec_from_ascii_request validate fromAscii body with
  | Except.error e =>
    { errorMessage := some ("Error parsing spectrum: " ++ e), created := none }
  | Except.ok spec => continuePost spec

/-! ## Concrete sample data (used to instantiate witness statements) -/

def sampleCoords : Coords :=
  { raHours := "1", raMinutes := "2", raSeconds := "3.0",
    decSign := "+", decDegrees := "4", decArcminutes := "5", decArcseconds := "6.0" }

def sampleObj : Obj :=
  { id := "ZTF21abc", internal_key := "key1", coords := sampleCoords }

def sampleAltdata : Altdata :=
  { username := "user1", password := "pw", LT_proposalID := "prop1" }

def samplePayloadData : LTPayloadData :=
  { observation_choices := ["g", "r"], observation_type := "blue",
    exposure_time := "300.0", exposure_counts := 1,
    start_date := "2024-01-01", end_date := "2024-01-08",
    maximum_airmass := "2.0", maximum_seeing := "1.2", sky_brightness := "2.0",
    photometric := some true }

def sampleReq : FollowupRequest :=
  { id := 7, obj := sampleObj, altdata := some sampleAltdata,
    payload := samplePayloadData, status := "pending",
    last_modified_by_id := 42, transactions := [] }

def sampleAf : String → Option String := fun s =>
  if s = "2024-01-01" then some "2024-01-01T00:00:00"
  else if s = "2024-01-08" then some "2024-01-08T00:00:00"
  else none

def sampleConfirmResp : XElem := XElem.mk "RTML" [("mode", "confirm")] none []

def sampleTr : String → String := fun _ => "resp-xml"

/-! ## Submit characterization lemmas -/

/-- Equation lemma: the transact step when the status computation
succeeds. -/
theorem lt_submit_transact_eq_ok (fromstring : String → XElem)
    (transport : String → String) (request : FollowupRequest) (payload : XElem)
    (st : String)
    (hs : lt_submit_status (fromstring (transport (xmlToString payload))) = Except.ok st) :
    lt_submit_transact fromstring transport request payload =
      { calls := [xmlToString payload],
        outcome := Except.ok
          { request := { request with status := st },
            transactions :=
              [{ request := serialize_requests_request_xml (xmlToString payload),
                 response := serialize_requests_response_xml (transport (xmlToString payload)),
                 initiator_id := request.last_modified_by_id }] } } := by
  simp only [lt_submit_transact, hs]

/-- Equation lemma: the transact step when the status computation raises. -/
theorem lt_submit_transact_eq_err (fromstring : String → XElem)
    (transport : String → String) (request : FollowupRequest) (payload : XElem)
    (e : String)
    (hs : lt_submit_status (fromstring (transport (xmlToString payload))) = Except.error e) :
    lt_submit_transact fromstring transport request payload =
      { calls := [xmlToString payload], outcome := Except.error e } := by
  simp only [lt_submit_transact, hs]

/-- On completion, the transact step made the one call with the serialized
payload, computed the status from the parsed response, and recorded the one
transaction with the serialized request and response. -/
theorem lt_submit_transact_spec (fromstring : String → XElem)
    (transport : String → String) (request : FollowupRequest) (payload : XElem)
    (out : LTOutcome)
    (h : (lt_submit_transact fromstring transport request payload).outcome = Except.ok out) :
    (lt_submit_transact fromstring transport request payload).calls = [xmlToString payload] ∧
    lt_submit_status (fromstring (transport (xmlToString payload))) =
      Except.ok out.request.status ∧
    out.request = { request with status := out.request.status } ∧
    out.transactions =
      [{ request := serialize_requests_request_xml (xmlToString payload),
         response := serialize_requests_response_xml (transport (xmlToString payload)),
         initiator_id := request.last_modified_by_id }] := by
  cases hs : lt_submit_status (fromstring (transport (xmlToString payload))) with
  | error e =>
    rw [lt_submit_transact_eq_err fromstring transport request payload e hs] at h
    cases h
  | ok st =>
    rw [lt_submit_transact_eq_ok fromstring transport request payload st hs] at h ⊢
    cases h
    exact ⟨rfl, rfl, rfl, rfl⟩

/-- The status computation: `"submitted"` on mode confirm, otherwise
`"rejected: "` plus the first Error element\'s text. -/
theorem lt_submit_status_spec (resp : XElem) (st : String)
    (h : lt_submit_status resp = Except.ok st) :
    (getAttr resp "mode" = some "confirm" → st = "submitted") ∧
    (getAttr resp "mode" ≠ some "confirm" →
      ∃ errElem, (iterTag ltErrorTag resp).head? = some errElem ∧
        st = "rejected: " ++ pyStr errElem.text) := by
  by_cases hm : getAttr resp "mode" = some "confirm"
  · simp only [lt_submit_status, hm, if_pos] at h
    cases h
    exact ⟨fun _ => rfl, fun hk => absurd hm hk⟩
  · simp only [lt_submit_status, hm, if_neg, if_false] at h
    cases he : (iterTag ltErrorTag resp).head? with
    | none => rw [he] at h; cases h
    | some errElem =>
      rw [he] at h
      cases h
      exact ⟨fun hc => absurd hc hm, fun _ => ⟨errElem, rfl, rfl⟩⟩

/-- On completion, the shared submit body found a credential blob, built
the payload, and behaved as the transact step on that payload. -/
theorem lt_submit_op_spec (fromstring : String → XElem)
    (transport : String → String) (request : FollowupRequest)
    (build : Altdata → Except String XElem) (out : LTOutcome)
    (h : (lt_submit_op fromstring transport request build).outcome = Except.ok out) :
    ∃ altdata payload, request.altdata = some altdata ∧
      build altdata = Except.ok payload ∧
      lt_submit_op fromstring transport request build =
        lt_submit_transact fromstring transport request payload := by
  cases ha : request.altdata with
  | none => simp only [lt_submit_op, ha] at h; cases h
  | some altdata =>
    cases hb : build altdata with
    | error e => simp only [lt_submit_op, ha, hb] at h; cases h
    | ok payload =>
      exact ⟨altdata, payload, rfl, hb, by simp only [lt_submit_op, ha, hb]⟩

/-- The shared submit body never makes more than one outbound call, and
when it completes it made exactly one call and added exactly the one
transaction recording the serialized request payload and response. -/
theorem lt_submit_op_calls (fromstring : String → XElem)
    (transport : String → String) (request : FollowupRequest)
    (build : Altdata → Except String XElem) :
    (lt_submit_op fromstring transport request build).calls.length ≤ 1 ∧
    ∀ out, (lt_submit_op fromstring transport request build).outcome = Except.ok out →
      (lt_submit_op fromstring transport request build).calls.length = 1 ∧
      ∃ p, (lt_submit_op fromstring transport request build).calls = [p] ∧
        out.transactions =
          [{ request := serialize_requests_request_xml p,
             response := serialize_requests_response_xml (transport p),
             initiator_id := request.last_modified_by_id }] := by
  constructor
  · cases ha : request.altdata with
    | none => simp [lt_submit_op, ha]
    | some altdata =>
      cases hb : build altdata with
      | error e => simp [lt_submit_op, ha, hb]
      | ok payload =>
        simp only [lt_submit_op, ha, hb]
        cases hs : lt_submit_status (fromstring (transport (xmlToString payload))) with
        | error e =>
          rw [lt_submit_transact_eq_err fromstring transport request payload e hs]
          simp
        | ok st =>
          rw [lt_submit_transact_eq_ok fromstring transport request payload st hs]
          simp
  · intro out h
    obtain ⟨altdata, payload, ha, hb, heq⟩ :=
      lt_submit_op_spec fromstring transport request build out h
    rw [heq] at h ⊢
    obtain ⟨hcalls, _, _, htx⟩ :=
      lt_submit_transact_spec fromstring transport request payload out h
    rw [hcalls]
    exact ⟨rfl, ⟨xmlToString payload, rfl, htx⟩⟩

/-- The shared submit body\'s status transition on completion, as a
function of the parsed response to the one call it made. -/
theorem lt_submit_op_status (fromstring : String → XElem)
    (transport : String → String) (request : FollowupRequest)
    (build : Altdata → Except String XElem) (out : LTOutcome) (p : String)
    (h : (lt_submit_op fromstring transport request build).outcome = Except.ok out)
    (hc : (lt_submit_op fromstring transport request build).calls = [p]) :
    (getAttr (fromstring (transport p)) "mode" = some "confirm" →
      out.request.status = "submitted") ∧
    (getAttr (fromstring (transport p)) "mode" ≠ some "confirm" →
      ∃ errElem, (iterTag ltErrorTag (fromstring (transport p))).head? = some errElem ∧
        out.request.status = "rejected: " ++ pyStr errElem.text) := by
  obtain ⟨altdata, payload, ha, hb, heq⟩ :=
    lt_submit_op_spec fromstring transport request build out h
  rw [heq] at h hc
  obtain ⟨hcalls, hstat, _, _⟩ :=
    lt_submit_transact_spec fromstring transport request payload out h
  rw [hcalls] at hc
  injection hc with hp _
  subst hp
  exact lt_submit_status_spec _ _ hstat

def sampleFrom : String → XElem := fun _ => sampleConfirmResp

/-! ## Claim theorems: payload prolog (C4) -/

/-- C4: for every follow-up request, the payload built by
`LTRequest._build_prolog` is an RTML root element carrying the XML
namespace `http://www.rtml.org/v3.1a`, version attribute `"3.1a"`, mode
attribute `"request"`, the xsi schemaLocation
`"http://www.rtml.org/v3.1a http://telescope.livjm.ac.uk/rtml/RTML-nightly.xsd"`,
and a uid of the form `"<obj id>-<request id>-<unix timestamp>"`. -/
theorem c4_build_prolog_shape (request : FollowupRequest) (timestamp : Nat) :
    (build_prolog request timestamp).tag = "RTML" ∧
    getAttr (build_prolog request timestamp) "xmlns" =
      some ("http://www.rtml.org/v3.1a") ∧
    getAttr (build_prolog request timestamp) "version" = some ("3.1a") ∧
    getAttr (build_prolog request timestamp) "mode" = some ("request") ∧
    getAttr (build_prolog request timestamp) xsiSchemaLocation =
      some ("http://www.rtml.org/v3.1a http://telescope.livjm.ac.uk/rtml/RTML-nightly.xsd") ∧
    getAttr (build_prolog request timestamp) "uid" =
      some (request.obj.id ++ "-" ++ toString request.id ++ "-" ++ toString timestamp) := by
  refine ⟨rfl, ?_, ?_, ?_, ?_, ?_⟩ <;>
    simp [build_prolog, getAttr, XElem.attrs, List.find?, xsiSchemaLocation,
      LT_XML_NS, LT_SCHEMA_LOCATION]

/-! ## Claim theorems: missing altdata (C3) -/

/-- C3: when the allocation's altdata is missing, each LT submit operation
and the delete operation fail with "Missing allocation information."
having made no outbound handle_rtml call, and the (spec-modelled)
surrounding API layer surfaces the failure as an error status on the
originating follow-up request. -/
theorem c3_missing_altdata (arrowFormat : String → Option String)
    (fromstring : String → XElem) (transport : String → String)
    (timestamp : Nat) (request : FollowupRequest)
    (h : request.altdata = none) :
    IOOAPI_submit arrowFormat fromstring transport timestamp request =
      { calls := [], outcome := Except.error "Missing allocation information." } ∧
    IOIAPI_submit arrowFormat fromstring transport timestamp request =
      { calls := [], outcome := Except.error "Missing allocation information." } ∧
    SPRATAPI_submit arrowFormat fromstring transport timestamp request =
      { calls := [], outcome := Except.error "Missing allocation information." } ∧
    LTAPI_delete fromstring transport request =
      { calls := [], outcome := Except.error "Missing allocation information." } ∧
    surface_failure request "Missing allocation information." =
      { request with status := "error: Missing allocation information." } := by
  refine ⟨?_, ?_, ?_, ?_, rfl⟩ <;>
    simp only [IOOAPI_submit, IOIAPI_submit, SPRATAPI_submit, LTAPI_delete,
      lt_submit_op, h]

def sampleReqNoAlt : FollowupRequest := { sampleReq with altdata := none }

/-- Witness for C3 at a concrete request whose allocation has no altdata. -/
theorem c3_missing_altdata_witness :
    IOOAPI_submit sampleAf sampleFrom sampleTr 0 sampleReqNoAlt =
      { calls := [], outcome := Except.error "Missing allocation information." } :=
  (c3_missing_altdata sampleAf sampleFrom sampleTr 0 sampleReqNoAlt rfl).1

/-! ## Claim theorems: one call, one transaction (C5) -/

/-- C5: every invocation of an LT submit operation makes at most one
outbound handle_rtml call (no retry), and whenever the invocation
completes — in the confirm branch and in the reject branch alike — it made
exactly one call and added exactly one FacilityTransaction recording the
serialized request payload and the serialized response. -/
theorem c5_submit_one_call_one_transaction (arrowFormat : String → Option String)
    (fromstring : String → XElem) (transport : String → String)
    (timestamp : Nat) (request : FollowupRequest) :
    ((IOOAPI_submit arrowFormat fromstring transport timestamp request).calls.length ≤ 1 ∧
      ∀ out, (IOOAPI_submit arrowFormat fromstring transport timestamp request).outcome =
          Except.ok out →
        (IOOAPI_submit arrowFormat fromstring transport timestamp request).calls.length = 1 ∧
        ∃ p, (IOOAPI_submit arrowFormat fromstring transport timestamp request).calls = [p] ∧
          out.transactions =
            [{ request := serialize_requests_request_xml p,
               response := serialize_requests_response_xml (transport p),
               initiator_id := request.last_modified_by_id }]) ∧
    ((IOIAPI_submit arrowFormat fromstring transport timestamp request).calls.length ≤ 1 ∧
      ∀ out, (IOIAPI_submit arrowFormat fromstring transport timestamp request).outcome =
          Except.ok out →
        (IOIAPI_submit arrowFormat fromstring transport timestamp request).calls.length = 1 ∧
        ∃ p, (IOIAPI_submit arrowFormat fromstring transport timestamp request).calls = [p] ∧
          out.transactions =
            [{ request := serialize_requests_request_xml p,
               response := serialize_requests_response_xml (transport p),
               initiator_id := request.last_modified_by_id }]) ∧
    ((SPRATAPI_submit arrowFormat fromstring transport timestamp request).calls.length ≤ 1 ∧
      ∀ out, (SPRATAPI_submit arrowFormat fromstring transport timestamp request).outcome =
          Except.ok out →
        (SPRATAPI_submit arrowFormat fromstring transport timestamp request).calls.length = 1 ∧
        ∃ p, (SPRATAPI_submit arrowFormat fromstring transport timestamp request).calls = [p] ∧
          out.transactions =
            [{ request := serialize_requests_request_xml p,
               response := serialize_requests_response_xml (transport p),
               initiator_id := request.last_modified_by_id }]) :=
  ⟨lt_submit_op_calls fromstring transport request _,
   lt_submit_op_calls fromstring transport request _,
   lt_submit_op_calls fromstring transport request _⟩

def sampleSubmitResult : LTOpResult :=
  IOOAPI_submit sampleAf sampleFrom sampleTr 0 sampleReq

def sampleSubmitOut : LTOutcome :=
  match sampleSubmitResult.outcome with
  | Except.ok o => o
  | Except.error _ => { request := sampleReq, transactions := [] }

def sampleSubmitCall : String :=
  match sampleSubmitResult.calls with
  | [p] => p
  | _ => ""

/-- Witness for C5 at a concrete completed IOO submission. -/
theorem c5_submit_one_call_one_transaction_witness :
    (IOOAPI_submit sampleAf sampleFrom sampleTr 0 sampleReq).calls.length = 1 :=
  ((c5_submit_one_call_one_transaction sampleAf sampleFrom sampleTr 0 sampleReq).1.2
    sampleSubmitOut rfl).1

/-! ## Claim theorems: submit status by response mode (C1) -/

/-- C1: for each LT submit operation, after the facility response is
parsed, the follow-up request's status becomes `"submitted"` when the
response RTML root's mode attribute is `"confirm"`, and otherwise becomes
`"rejected: "` followed by the text of the first Error element in the
`http://www.rtml.org/v3.1a` namespace. -/
theorem c1_submit_status_by_mode (arrowFormat : String → Option String)
    (fromstring : String → XElem) (transport : String → String)
    (timestamp : Nat) (request : FollowupRequest) :
    (∀ out p, (IOOAPI_submit arrowFormat fromstring transport timestamp request).outcome =
        Except.ok out →
      (IOOAPI_submit arrowFormat fromstring transport timestamp request).calls = [p] →
      (getAttr (fromstring (transport p)) "mode" = some "confirm" →
        out.request.status = "submitted") ∧
      (getAttr (fromstring (transport p)) "mode" ≠ some "confirm" →
        ∃ errElem, (iterTag ltErrorTag (fromstring (transport p))).head? = some errElem ∧
          out.request.status = "rejected: " ++ pyStr errElem.text)) ∧
    (∀ out p, (IOIAPI_submit arrowFormat fromstring transport timestamp request).outcome =
        Except.ok out →
      (IOIAPI_submit arrowFormat fromstring transport timestamp request).calls = [p] →
      (getAttr (fromstring (transport p)) "mode" = some "confirm" →
        out.request.status = "submitted") ∧
      (getAttr (fromstring (transport p)) "mode" ≠ some "confirm" →
        ∃ errElem, (iterTag ltErrorTag (fromstring (transport p))).head? = some errElem ∧
          out.request.status = "rejected: " ++ pyStr errElem.text)) ∧
    (∀ out p, (SPRATAPI_submit arrowFormat fromstring transport timestamp request).outcome =
        Except.ok out →
      (SPRATAPI_submit arrowFormat fromstring transport timestamp request).calls = [p] →
      (getAttr (fromstring (transport p)) "mode" = some "confirm" →
        out.request.status = "submitted") ∧
      (getAttr (fromstring (transport p)) "mode" ≠ some "confirm" →
        ∃ errElem, (iterTag ltErrorTag (fromstring (transport p))).head? = some errElem ∧
          out.request.status = "rejected: " ++ pyStr errElem.text)) :=
  ⟨fun out p h hc => lt_submit_op_status fromstring transport request _ out p h hc,
   fun out p h hc => lt_submit_op_status fromstring transport request _ out p h hc,
   fun out p h hc => lt_submit_op_status fromstring transport request _ out p h hc⟩

/-- Witness for C1 at a concrete IOO submission whose facility response
has mode confirm. -/
theorem c1_submit_status_by_mode_witness :
    sampleSubmitOut.request.status = "submitted" := by
  have h := (c1_submit_status_by_mode sampleAf sampleFrom sampleTr 0 sampleReq).1
    sampleSubmitOut sampleSubmitCall rfl rfl
  exact h.1 rfl

/-! ## Claim theorems: delete status transitions (C2) -/

/-- The serialized cancel payload `LTAPI.delete` sends: built from the uid
of the stored first transaction's parsed response and the allocation
credentials. -/
def lt_delete_cancel (fromstring : String → XElem) (altdata : Altdata)
    (t0 : FacilityTransaction) : String :=
  xmlToString (lt_cancel_payload (getAttr (fromstring t0.response) "uid") altdata)

/-- C2: `LTAPI.delete` sets the request status to `"deleted"` exactly on a
parsed cancel response with mode `"confirm"`; on mode `"reject"` a
FacilityTransaction is still recorded while the status is unchanged; on
any other mode the status is unchanged and no transaction is added. -/
theorem c2_delete_status_transitions (fromstring : String → XElem)
    (transport : String → String) (request : FollowupRequest)
    (altdata : Altdata) (t0 : FacilityTransaction)
    (ha : request.altdata = some altdata)
    (ht : request.transactions.head? = some t0) :
    (getAttr (fromstring (transport (lt_delete_cancel fromstring altdata t0))) "mode" =
        some "confirm" →
      LTAPI_delete fromstring transport request =
        { calls := [lt_delete_cancel fromstring altdata t0],
          outcome := Except.ok
            { request := { request with status := "deleted" },
              transactions :=
                [{ request := serialize_requests_request_xml
                      (lt_delete_cancel fromstring altdata t0),
                   response := serialize_requests_response_xml
                      (transport (lt_delete_cancel fromstring altdata t0)),
                   initiator_id := request.last_modified_by_id }] } }) ∧
    (getAttr (fromstring (transport (lt_delete_cancel fromstring altdata t0))) "mode" =
        some "reject" →
      LTAPI_delete fromstring transport request =
        { calls := [lt_delete_cancel fromstring altdata t0],
          outcome := Except.ok
            { request := request,
              transactions :=
                [{ request := serialize_requests_request_xml
                      (lt_delete_cancel fromstring altdata t0),
                   response := serialize_requests_response_xml
                      (transport (lt_delete_cancel fromstring altdata t0)),
                   initiator_id := request.last_modified_by_id }] } }) ∧
    (getAttr (fromstring (transport (lt_delete_cancel fromstring altdata t0))) "mode" ≠
        some "confirm" →
      getAttr (fromstring (transport (lt_delete_cancel fromstring altdata t0))) "mode" ≠
        some "reject" →
      LTAPI_delete fromstring transport request =
        { calls := [lt_delete_cancel fromstring altdata t0],
          outcome := Except.ok { request := request, transactions := [] } }) := by
  refine ⟨?_, ?_, ?_⟩
  · intro hm
    rw [lt_delete_cancel] at hm
    simp only [LTAPI_delete, ha, ht, lt_delete_cancel, hm]
    simp
  · intro hm
    rw [lt_delete_cancel] at hm
    simp only [LTAPI_delete, ha, ht, lt_delete_cancel, hm]
    simp
  · intro hm1 hm2
    rw [lt_delete_cancel] at hm1 hm2
    simp only [LTAPI_delete, ha, ht, lt_delete_cancel, hm1, hm2]
    simp [hm1, hm2]

def sampleTx0 : FacilityTransaction := { request := "q", response := "r", initiator_id := 42 }

def sampleReqTx : FollowupRequest := { sampleReq with transactions := [sampleTx0] }

/-- Witness for C2 at a concrete delete whose cancel response has mode
confirm. -/
theorem c2_delete_status_transitions_witness :
    LTAPI_delete sampleFrom sampleTr sampleReqTx =
      { calls := [lt_delete_cancel sampleFrom sampleAltdata sampleTx0],
        outcome := Except.ok
          { request := { sampleReqTx with status := "deleted" },
            transactions :=
              [{ request := serialize_requests_request_xml
                    (lt_delete_cancel sampleFrom sampleAltdata sampleTx0),
                 response := serialize_requests_response_xml
                    (sampleTr (lt_delete_cancel sampleFrom sampleAltdata sampleTx0)),
                 initiator_id := sampleReqTx.last_modified_by_id }] } } :=
  (c2_delete_status_transitions sampleFrom sampleTr sampleReqTx sampleAltdata
    sampleTx0 rfl rfl).1 rfl

/-! ## Claim theorems: constraint building (C10) -/

/-- C10: `_build_constraints` raises ValueError exactly when `start_date`
or `end_date` cannot be parsed as a date; otherwise it returns the five
constraint elements in the order airmass, sky, seeing, extinction,
date-time, with DateTimeStart/DateTimeEnd the formatted dates plus
`"+00:00"` and the Clouds text `"clear"` exactly when `photometric` is
present and truthy, otherwise `"light"`. -/
theorem c10_build_constraints (arrowFormat : String → Option String)
    (request : FollowupRequest) :
    ((∃ x, build_constraints arrowFormat request = Except.error x) ↔
      (arrowFormat request.payload.start_date = none ∨
       arrowFormat request.payload.end_date = none)) ∧
    (∀ x, build_constraints arrowFormat request = Except.error x →
      x = "Error parsing dates for LT request, should be in ISO format") ∧
    (∀ s e, arrowFormat request.payload.start_date = some s →
      arrowFormat request.payload.end_date = some e →
      build_constraints arrowFormat request = Except.ok
        [XElem.mk "AirmassConstraint" [("maximum", request.payload.maximum_airmass)] none [],
         XElem.mk "SkyConstraint" [] none
           [XElem.mk "Flux" [] (some request.payload.sky_brightness) [],
            XElem.mk "Units" [] (some "magnitudes/square-arcsecond") []],
         XElem.mk "SeeingConstraint"
           [("maximum", request.payload.maximum_seeing), ("units", "arcseconds")] none [],
         XElem.mk "ExtinctionConstraint" [] none
           [XElem.mk "Clouds" []
             (some (if request.payload.photometric = some true then "clear" else "light")) []],
         XElem.mk "DateTimeConstraint" [("type", "include")] none
           [XElem.mk "DateTimeStart" [("system", "UT"), ("value", s ++ "+00:00")] none [],
            XElem.mk "DateTimeEnd" [("system", "UT"), ("value", e ++ "+00:00")] none []]]) := by
  cases hs : arrowFormat request.payload.start_date with
  | none =>
    cases he : arrowFormat request.payload.end_date with
    | none =>
      refine ⟨⟨fun _ => Or.inl rfl, fun _ => ⟨"Error parsing dates for LT request, should be in ISO format",
          by simp only [build_constraints, hs, he]⟩⟩,
        ?_, ?_⟩
      · intro x h
        simp only [build_constraints, hs, he] at h
        exact (Except.error.inj h).symm
      · intro s e h1 _
        cases h1
    | some e0 =>
      refine ⟨⟨fun _ => Or.inl rfl, fun _ => ⟨"Error parsing dates for LT request, should be in ISO format",
          by simp only [build_constraints, hs, he]⟩⟩,
        ?_, ?_⟩
      · intro x h
        simp only [build_constraints, hs, he] at h
        exact (Except.error.inj h).symm
      · intro s e h1 _
        cases h1
  | some s0 =>
    cases he : arrowFormat request.payload.end_date with
    | none =>
      refine ⟨⟨fun _ => Or.inr rfl, fun _ => ⟨"Error parsing dates for LT request, should be in ISO format",
          by simp only [build_constraints, hs, he]⟩⟩,
        ?_, ?_⟩
      · intro x h
        simp only [build_constraints, hs, he] at h
        exact (Except.error.inj h).symm
      · intro s e _ h2
        cases h2
    | some e0 =>
      refine ⟨⟨?_, ?_⟩, ?_, ?_⟩
      · rintro ⟨x, h⟩
        simp only [build_constraints, hs, he] at h
        exact Except.noConfusion h
      · rintro (h | h) <;> cases h
      · intro x h
        simp only [build_constraints, hs, he] at h
        exact Except.noConfusion h
      · intro s e h1 h2
        cases Option.some.inj h1
        cases Option.some.inj h2
        simp only [build_constraints, hs, he]

/-- Witness for C10 at a concrete request with parseable dates. -/
theorem c10_build_constraints_witness :
    build_constraints sampleAf sampleReq = Except.ok
      [XElem.mk "AirmassConstraint" [("maximum", "2.0")] none [],
       XElem.mk "SkyConstraint" [] none
         [XElem.mk "Flux" [] (some "2.0") [],
          XElem.mk "Units" [] (some "magnitudes/square-arcsecond") []],
       XElem.mk "SeeingConstraint" [("maximum", "1.2"), ("units", "arcseconds")] none [],
       XElem.mk "ExtinctionConstraint" [] none
         [XElem.mk "Clouds" [] (some "clear") []],
       XElem.mk "DateTimeConstraint" [("type", "include")] none
         [XElem.mk "DateTimeStart" [("system", "UT"),
            ("value", "2024-01-01T00:00:00" ++ "+00:00")] none [],
          XElem.mk "DateTimeEnd" [("system", "UT"),
            ("value", "2024-01-08T00:00:00" ++ "+00:00")] none []]] :=
  (c10_build_constraints sampleAf sampleReq).2.2
    "2024-01-01T00:00:00" "2024-01-08T00:00:00" rfl rfl

/-! ## Claim theorems: per-filter schedules (C9) -/

/-- The Schedule shape the specification asserts for one IOO/IOI filter
choice: a camera Device whose Setup carries a Filter typed with the
uppercased choice and 2x2 pixel binning, an Exposure with the converted
count and the shared exposure time, then the target and the constraints. -/
def iooSpecSchedule (instname filt exp_time : String) (exp_count : Int)
    (target : XElem) (consts : List XElem) : XElem :=
  XElem.mk "Schedule" [] none
    ([XElem.mk "Device" [("name", instname), ("type", "camera")] none
        (spectralRegionFor instname ++
          [XElem.mk "Setup" [] none
            [XElem.mk "Filter" [("type", filt.toUpper)] none [],
             XElem.mk "Detector" [] none
              [XElem.mk "Binning" [] none
                [XElem.mk "X" [("units", "pixels")] (some "2") [],
                 XElem.mk "Y" [("units", "pixels")] (some "2") []]]]]),
      XElem.mk "Exposure" [("count", toString exp_count)] none
        [XElem.mk "Value" [("units", "seconds")] (some exp_time) []],
      target] ++ consts)

/-- The Schedule shape the specification asserts for a SPRAT request: a
spectrograph Device whose Setup carries a Grating named by the observation
type and 1x1 pixel binning, the Exposure, the target and the
constraints. -/
def spratSpecSchedule (grating exp_time : String) (exp_count : Int)
    (target : XElem) (consts : List XElem) : XElem :=
  XElem.mk "Schedule" [] none
    ([XElem.mk "Device" [("name", "Sprat"), ("type", "spectrograph")] none
        [XElem.mk "SpectralRegion" [] (some "optical") [],
         XElem.mk "Setup" [] none
          [XElem.mk "Grating" [("name", grating)] none [],
           XElem.mk "Detector" [] none
            [XElem.mk "Binning" [] none
              [XElem.mk "X" [("units", "pixels")] (some "1") [],
               XElem.mk "Y" [("units", "pixels")] (some "1") []]]]],
      XElem.mk "Exposure" [("count", toString exp_count)] none
        [XElem.mk "Value" [("units", "seconds")] (some exp_time) []],
      target] ++ consts)

/-- One IOO/IOI schedule build equals the asserted shape once the
constraints build. -/
theorem build_schedule_eq (arrowFormat : String → Option String) (instname : String)
    (request : FollowupRequest) (filt exp_time : String) (exp_count : Int)
    (consts : List XElem)
    (hc : build_constraints arrowFormat request = Except.ok consts) :
    build_schedule arrowFormat instname request filt exp_time exp_count =
      Except.ok (iooSpecSchedule instname filt exp_time exp_count
        (build_target request.obj) consts) := by
  simp only [build_schedule, hc, iooSpecSchedule]

/-- Unrolling the IOO/IOI schedule loop: one Schedule per filter choice,
appended in order. -/
theorem appendSchedules_ok (arrowFormat : String → Option String) (instname : String)
    (request : FollowupRequest) (exp_time : String) (exp_count : Int)
    (consts : List XElem)
    (hc : build_constraints arrowFormat request = Except.ok consts) :
    ∀ (filts : List String) (acc : XElem),
      appendSchedules arrowFormat instname request exp_time exp_count filts acc =
        Except.ok (XElem.mk acc.tag acc.attrs acc.text (acc.children ++
          filts.map (fun filt => iooSpecSchedule instname filt exp_time exp_count
            (build_target request.obj) consts))) := by
  intro filts
  induction filts with
  | nil =>
    intro acc
    cases acc with
    | mk t a x cs => simp [appendSchedules, XElem.tag, XElem.attrs, XElem.text, XElem.children]
  | cons filt rest ih =>
    intro acc
    rw [appendSchedules,
      build_schedule_eq arrowFormat instname request filt exp_time exp_count consts hc]
    show appendSchedules arrowFormat instname request exp_time exp_count rest
        (appendChild acc (iooSpecSchedule instname filt exp_time exp_count
          (build_target request.obj) consts)) = _
    rw [ih (appendChild acc (iooSpecSchedule instname filt exp_time exp_count
      (build_target request.obj) consts))]
    simp [appendChild, XElem.tag, XElem.attrs, XElem.text, XElem.children]

/-- C9: once the constraints build, every IOO/IOI observation payload
carries, after the Project header, exactly one Schedule element per entry
of `observation_choices`, in order, each of the asserted per-filter shape
(uppercased Filter type, converted Exposure count, shared exposure time,
2x2 binning); a SPRAT payload instead carries exactly one Schedule of the
SPRAT shape (1x1 binning, Grating named by `observation_type`). -/
theorem c9_schedules_per_choice (arrowFormat : String → Option String)
    (request : FollowupRequest) (timestamp : Nat) (altdata : Altdata) :
    (∀ instname consts p,
      build_constraints arrowFormat request = Except.ok consts →
      IOOIOIRequest_payload arrowFormat instname request timestamp altdata =
        Except.ok p →
      p.children =
        (build_project (build_prolog request timestamp) altdata).children ++
          request.payload.observation_choices.map (fun filt =>
            iooSpecSchedule instname filt request.payload.exposure_time
              request.payload.exposure_counts (build_target request.obj) consts)) ∧
    (∀ consts p,
      build_constraints arrowFormat request = Except.ok consts →
      SPRATRequest_payload arrowFormat request timestamp altdata = Except.ok p →
      p.children =
        (build_project (build_prolog request timestamp) altdata).children ++
          [spratSpecSchedule request.payload.observation_type
            request.payload.exposure_time request.payload.exposure_counts
            (build_target request.obj) consts]) := by
  constructor
  · intro instname consts p hc hp
    rw [IOOIOIRequest_payload, build_inst_schedule,
      appendSchedules_ok arrowFormat instname request request.payload.exposure_time
        request.payload.exposure_counts consts hc] at hp
    cases hp
    simp [XElem.children]
  · intro consts p hc hp
    rw [SPRATRequest_payload, build_SPRAT_schedule] at hp
    rw [hc] at hp
    cases hp
    simp [appendChild, spratSpecSchedule, XElem.children]

def sampleIOOPayload : XElem :=
  match IOOIOIRequest_payload sampleAf "IO:O" sampleReq 0 sampleAltdata with
  | Except.ok p => p
  | Except.error _ => XElem.mk "" [] none []

def sampleConsts : List XElem :=
  match build_constraints sampleAf sampleReq with
  | Except.ok cs => cs
  | Except.error _ => []

/-- Witness for C9 at a concrete IOO request with two filter choices. -/
theorem c9_schedules_per_choice_witness :
    sampleIOOPayload.children =
      (build_project (build_prolog sampleReq 0) sampleAltdata).children ++
        (["g", "r"].map (fun filt =>
          iooSpecSchedule "IO:O" filt "300.0" 1 (build_target sampleObj) sampleConsts)) :=
  (c9_schedules_per_choice sampleAf sampleReq 0 sampleAltdata).1
    "IO:O" sampleConsts sampleIOOPayload rfl rfl

/-! ## Claim theorems: ObjAnalysis permissions (C6) -/

/-- C6: the ObjAnalysis update and delete predicates grant access exactly
when the acting user matches the record's author, and the read predicate
grants access exactly when the user is a member of one of the record's
groups and can also read the associated obj. -/
theorem c6_objanalysis_permissions (u : AccessUser) (r : ObjAnalysisRow) :
    (ObjAnalysis_update u r = true ↔ u.userId = r.author_id) ∧
    (ObjAnalysis_delete u r = true ↔ u.userId = r.author_id) ∧
    (ObjAnalysis_read u r = true ↔
      ((∃ g ∈ r.group_ids, g ∈ u.groupMemberships) ∧ u.canReadObj = true)) := by
  refine ⟨?_, ?_, ?_⟩ <;>
    simp [ObjAnalysis_update, ObjAnalysis_delete, ObjAnalysis_read,
      accessibleIfUserMatchesAuthor, accessible_by_groups_members,
      accessibleIfRelatedObjReadable, List.any_eq_true]

/-! ## Claim theorems: summary query validation (C7) -/

/-- C7: `SummaryQueryHandler.post` returns an error response (400-class
per the spec) without issuing any vector-index query whenever the body has
`q` and `objID` both missing-or-empty, or both provided, or a `k` outside
1..100, or both redshift bounds present with `z_min > z_max`. -/
theorem c7_summary_query_validation (b : SummaryQueryBody)
    (h : ((b.q = none ∨ b.q = some "") ∧ (b.objID = none ∨ b.objID = some "")) ∨
      (b.q ≠ none ∧ b.objID ≠ none) ∨
      (∃ kv, b.k = some kv ∧ (kv < 1 ∨ kv > 100)) ∨
      (∃ zmin zmax, b.z_min = some zmin ∧ b.z_max = some zmax ∧ zmin > zmax)) :
    (summary_query_post b).isErr = true := by
  by_cases h1 : (b.q = none ∨ b.q = some "") ∧ (b.objID = none ∨ b.objID = some "")
  · simp [summary_query_post, h1, SummaryQueryOutcome.isErr]
  · by_cases h2 : b.q ≠ none ∧ b.objID ≠ none
    · by_cases hq : b.q = some "" ∧ b.objID = some ""
      · simp [summary_query_post, h1, h2, hq, SummaryQueryOutcome.isErr]
      · simp [summary_query_post, h1, h2, hq, SummaryQueryOutcome.isErr]
    · by_cases hk : b.k.getD 5 < 1 ∨ b.k.getD 5 > 100
      · simp [summary_query_post, h1, h2, hk, SummaryQueryOutcome.isErr]
      · rcases h with h | h | ⟨kv, hkv, hout⟩ | ⟨zmin, zmax, hz1, hz2, hgt⟩
        · exact absurd h h1
        · exact absurd h h2
        · refine absurd ?_ hk
          rw [hkv]
          simpa using hout
        · simp [summary_query_post, h1, h2, hk, hz1, hz2, hgt,
            SummaryQueryOutcome.isErr]

/-- Witness for C7 at a concrete body with both q and objID missing. -/
theorem c7_summary_query_validation_witness :
    (summary_query_post
      { q := none, objID := none, k := none, z_min := none, z_max := none,
        classificationTypes := none }).isErr = true :=
  c7_summary_query_validation
    { q := none, objID := none, k := none, z_min := none, z_max := none,
      classificationTypes := none }
    (Or.inl ⟨Or.inl rfl, Or.inl rfl⟩)

/-! ## Claim theorems: ASCII size limit (C8) -/

/-- C8: for every request whose ascii field exceeds 10,000,000 characters,
`spec_from_ascii_request` raises before any parsing is attempted (its
result does not depend on the parser), and
`SpectrumASCIIFileHandler.post` surfaces the failure as an error response
(400-class per the spec) without creating a spectrum. -/
theorem c8_ascii_size_limit {α : Type} (validate : AsciiBody → Option String)
    (fromAscii fromAscii' : AsciiBody → α) (continuePost : α → AsciiPostOutcome α)
    (body : AsciiBody) (h : body.ascii.length > 10000000) :
    (∃ e, spec_from_ascii_request validate fromAscii body = Except.error e) ∧
    (validate body = none →
      spec_from_ascii_request validate fromAscii body =
        Except.error ("File must be smaller than 10,000,000 characters.")) ∧
    (spec_from_ascii_request validate fromAscii body =
      spec_from_ascii_request validate fromAscii' body) ∧
    (spectrum_ascii_file_post validate fromAscii continuePost body).created = none ∧
    (∃ m, (spectrum_ascii_file_post validate fromAscii continuePost body).errorMessage =
      some m) := by
  cases hv : validate body with
  | some e =>
    have hs : spec_from_ascii_request validate fromAscii body =
        Except.error ("Invalid/missing parameters: " ++ e) := by
      simp [spec_from_ascii_request, hv]
    have hs' : spec_from_ascii_request validate fromAscii' body =
        Except.error ("Invalid/missing parameters: " ++ e) := by
      simp [spec_from_ascii_request, hv]
    refine ⟨⟨_, hs⟩, ?_, hs.trans hs'.symm, ?_, ?_⟩
    · intro hn
      exact Option.noConfusion hn
    · simp [spectrum_ascii_file_post, hs]
    · exact ⟨"Error parsing spectrum: " ++ ("Invalid/missing parameters: " ++ e),
        by simp [spectrum_ascii_file_post, hs]⟩
  | none =>
    have hs : spec_from_ascii_request validate fromAscii body =
        Except.error ("File must be smaller than 10,000,000 characters.") := by
      simp [spec_from_ascii_request, hv, h]
    have hs' : spec_from_ascii_request validate fromAscii' body =
        Except.error ("File must be smaller than 10,000,000 characters.") := by
      simp [spec_from_ascii_request, hv, h]
    refine ⟨⟨_, hs⟩, fun _ => hs, hs.trans hs'.symm, ?_, ?_⟩
    · simp [spectrum_ascii_file_post, hs]
    · exact ⟨"Error parsing spectrum: " ++ "File must be smaller than 10,000,000 characters.",
        by simp [spectrum_ascii_file_post, hs]⟩

def sampleLongAsciiBody : AsciiBody :=
  { ascii := String.mk (List.replicate 10000001 'a'),
    obj_id := none, instrument_id := none, observed_at := none,
    wave_column := none, flux_column := none, fluxerr_column := none,
    filename := none }

def sampleNoValidate : AsciiBody → Option String := fun _ => none

def sampleParse : AsciiBody → Unit := fun _ => ()

def sampleContinue : Unit → AsciiPostOutcome Unit :=
  fun _ => { errorMessage := none, created := none }

/-- Witness for C8 at a concrete body whose ascii field has 10,000,001
characters. -/
theorem c8_ascii_size_limit_witness :
    spec_from_ascii_request sampleNoValidate sampleParse sampleLongAsciiBody =
      Except.error ("File must be smaller than 10,000,000 characters.") := by
  have h : sampleLongAsciiBody.ascii.length > 10000000 := by
    show (String.mk (List.replicate 10000001 'a')).length > 10000000
    rw [String.length]
    rw [List.length_replicate]
    norm_num
  exact (c8_ascii_size_limit sampleNoValidate sampleParse sampleParse
    sampleContinue sampleLongAsciiBody h).2.1 rfl
